import Mathlib

/-!
Shallow embedding of `viroconcom/fitting.py` (the conditional-parameter
fitting engine).

Conventions used throughout:
* Python floats are modelled as `ℚ` (the numerics of the external
  libraries, scipy / statsmodels, are abstracted into an `Oracles`
  record of fit functions; `np.log` is abstracted as a field `lg`).
* Fallible Python code is modelled in `Except PyErr`; the exception
  classes that actually occur are constructors of `PyErr`.  The message
  texts are transcribed from the source, with quote characters around
  interpolated values elided.
* `warnings.warn` calls are pure side effects with no influence on
  control flow or data; they are elided (noted with comments at each
  site).
* Python lists are Lean lists; `xs[i]` is `pyGet` (raising `IndexError`
  out of range), `xs[i] = v` is `pySet`.
-/

/-- Python exception classes raised by the code under study. -/
inductive PyErr : Type
  | valueError (msg : String)
  | runtimeError (msg : String)
  | notImplementedError (msg : String)
  | unboundLocalError (varName : String)
  | indexError (msg : String)
  | attributeError (msg : String)
  | typeError (msg : String)
  deriving DecidableEq, Repr

/-- `xs[i]` on a Python list: `IndexError` when out of range
(negative indices do not occur in the code under study). -/
def pyGet {α : Type} (l : List α) (i : Nat) : Except PyErr α :=
  if h : i < l.length then .ok (l.get ⟨i, h⟩)
  else .error (.indexError "list index out of range")

/-- `xs[i] = v` on a Python list: `IndexError` when out of range. -/
def pySet {α : Type} (l : List α) (i : Nat) (v : α) : Except PyErr (List α) :=
  if i < l.length then .ok (l.set i v)
  else .error (.indexError "list assignment index out of range")

/-- Python `max(xs)` on a list: `ValueError` on an empty list. -/
def listMax (l : List ℚ) : Except PyErr ℚ :=
  match l with
  | [] => .error (.valueError "max arg is an empty sequence")
  | x :: xs => .ok (xs.foldl max x)

/-- `np.delete(arr, i)` for a 1-d array: removes the element at index
`i`, raising `IndexError` when `i` is out of bounds. -/
def npDelete (l : List ℚ) (i : Nat) : Except PyErr (List ℚ) :=
  if i < l.length then .ok (l.eraseIdx i)
  else .error (.indexError ("index " ++ toString i ++
    " is out of bounds for axis 0 with size " ++ toString l.length))

/-- `np.arange(start, stop, step)` (for the positive steps used by the
code): the values `start + k * step` for `k < ceil((stop - start) / step)`. -/
def npArange (start stop step : ℚ) : List ℚ :=
  (List.range (⌈(stop - start) / step⌉.toNat)).map (fun k : Nat => start + (k : ℚ) * step)

/-- The two dependency-function shapes (source: `_f1`, `_f2`).
`_f1 x = a + b * x ^ c` (power), `_f2 x = a + b * exp (c * x)`
(exponential); their numeric evaluation is external and never needed. -/
inductive FuncKind : Type
  | f1
  | f2
  deriving DecidableEq, Repr

/-- `Fit._get_function`: maps the configuration strings to the
functions; `None` passes through; any other string raises `ValueError`. -/
def get_function (function_name : Option String) : Except PyErr (Option FuncKind) :=
  match function_name with
  | some "f1" => .ok (some FuncKind.f1)
  | some "f2" => .ok (some FuncKind.f2)
  | none => .ok none
  | some s => .error (.valueError ("Function " ++ s ++ " is unknown."))

/-- External statistical library (scipy / statsmodels), abstracted.
Each fit either returns parameters (`some`) or fails:
a `none` from the marginal fitters models `ValueError` from
`scipy.stats.*.fit`, a `none` from `curve_fit` models the
`RuntimeError` raised by `scipy.optimize.curve_fit` when the optimizer
does not converge under its iteration budget (`maxfev`; `none` budget
is scipy's default).  `lg` is `np.log`. -/
structure Oracles : Type where
  weibull_fit : List ℚ → Option (ℚ × ℚ × ℚ)
  norm_fit : List ℚ → Option (ℚ × ℚ)
  lognorm_fit : List ℚ → Option (ℚ × ℚ × ℚ)
  curve_fit : FuncKind → List ℚ → List ℚ → Option Nat → Option (ℚ × ℚ × ℚ)
  lg : ℚ → ℚ

/-- Result of `Fit._fit_distribution`: a `(shape, loc, scale)` triple of
`ConstantParam`s (modelled by their wrapped values), or, for the
kernel-density family, the `(cdf, icdf)` function pair (whose content is
external and irrelevant here). -/
inductive FitResult : Type
  | params (shape loc scale : ℚ)
  | kde
  deriving DecidableEq, Repr

/-- `Fit._fit_distribution(sample, name)`: dispatch on the family-name
string.  Note the dispatch tests, in source order: `name == 'Weibull'`,
`name == 'Normal'` (a `(loc, scale)` fit with shape 0 inserted),
`name[:-2] == 'Lognormal'` (loc fixed to 0 by the fit call), and
`name == 'KernelDensity'` (early return of the function pair).  For any
other name the local variable `params` is never assigned, so the final
`return` raises `UnboundLocalError`. -/
def fit_distribution (o : Oracles) (name : String) (sample : List ℚ) :
    Except PyErr FitResult :=
  if name = "Weibull" then
    match o.weibull_fit sample with
    | some t => .ok (.params t.1 t.2.1 t.2.2)
    | none => .error (.valueError "weibull fit failed")
  else if name = "Normal" then
    match o.norm_fit sample with
    | some t => .ok (.params 0 t.1 t.2)
    | none => .error (.valueError "norm fit failed")
  else if name.dropRight 2 = "Lognormal" then
    match o.lognorm_fit sample with
    | some t => .ok (.params t.1 t.2.1 t.2.2)
    | none => .error (.valueError "lognorm fit failed")
  else if name = "KernelDensity" then .ok .kde
  else .error (.unboundLocalError "params")

/-- `BasicFit`: the `(shape, loc, scale)` triple plus the raw samples of
a single fit. -/
structure BasicFit : Type where
  shape : ℚ
  loc : ℚ
  scale : ℚ
  samples : List ℚ
  deriving DecidableEq, Repr

/-- `FitInspectionData`: diagnostic data of one dimension.  The field
`shape_value` models the Python attribute `_shape_value`, a list that
`__init__` sets to `[None, None, None]` (`shape_at`, `shape_samples`
and the loc/scale analogues are likewise set to `None`). -/
structure FitInspectionData : Type where
  used_number_of_intervals : Option Nat
  shape_at : Option (List ℚ)
  shape_value : List (Option (List ℚ))
  loc_at : Option (List ℚ)
  loc_value : List (Option (List ℚ))
  scale_at : Option (List ℚ)
  scale_value : List (Option (List ℚ))
  shape_samples : Option (List (List ℚ))
  loc_samples : Option (List (List ℚ))
  scale_samples : Option (List (List ℚ))
  deriving DecidableEq, Repr

/-- `FitInspectionData.__init__`: every accumulator starts as `None`
(the three `_*_value` attributes start as the list `[None, None, None]`). -/
def FitInspectionData.init : FitInspectionData :=
  ⟨none, none, [none, none, none], none, [none, none, none],
   none, [none, none, none], none, none, none⟩

/-- `x.append(v)` where `x` may be `None` (as the accumulators of a
fresh `FitInspectionData` are): `AttributeError` on `None`. -/
def noneAppend {α : Type} (x : Option (List α)) (v : α) :
    Except PyErr (List α) :=
  match x with
  | none => .error (.attributeError "NoneType object has no attribute append")
  | some l => .ok (l ++ [v])

/-- `FitInspectionData.append_basic_fit(param, basic_fit)`: appends the
three parameters of `basic_fit` to the three sub-lists of the chosen
accumulator and the raw samples to the samples list; unknown parameter
names raise `ValueError`. -/
def FitInspectionData.append_basic_fit (f : FitInspectionData)
    (param : String) (basic_fit : BasicFit) :
    Except PyErr FitInspectionData := do
  if param = "shape" then
    let v0 ← noneAppend (f.shape_value.getD 0 none) basic_fit.shape
    let v1 ← noneAppend (f.shape_value.getD 1 none) basic_fit.loc
    let v2 ← noneAppend (f.shape_value.getD 2 none) basic_fit.scale
    let s ← noneAppend f.shape_samples basic_fit.samples
    return { f with shape_value := [some v0, some v1, some v2], shape_samples := some s }
  else if param = "loc" then
    let v0 ← noneAppend (f.loc_value.getD 0 none) basic_fit.shape
    let v1 ← noneAppend (f.loc_value.getD 1 none) basic_fit.loc
    let v2 ← noneAppend (f.loc_value.getD 2 none) basic_fit.scale
    let s ← noneAppend f.loc_samples basic_fit.samples
    return { f with loc_value := [some v0, some v1, some v2], loc_samples := some s }
  else if param = "scale" then
    let v0 ← noneAppend (f.scale_value.getD 0 none) basic_fit.shape
    let v1 ← noneAppend (f.scale_value.getD 1 none) basic_fit.loc
    let v2 ← noneAppend (f.scale_value.getD 2 none) basic_fit.scale
    let s ← noneAppend f.scale_samples basic_fit.samples
    return { f with scale_value := [some v0, some v1, some v2], scale_samples := some s }
  else
    .error (.valueError ("Parameter " ++ param ++ " is unknown."))

/-- `x[i]` where `x` may be `None` (subscripting `None` is a
`TypeError` in Python). -/
def noneSubscript {α : Type} (x : Option (List α)) (i : Nat) :
    Except PyErr α :=
  match x with
  | none => .error (.typeError "NoneType object is not subscriptable")
  | some l => pyGet l i

/-- `FitInspectionData.get_basic_fit(param, index)`: rebuilds a
`BasicFit` from the accumulators; unknown parameter names raise
`ValueError`. -/
def FitInspectionData.get_basic_fit (f : FitInspectionData)
    (param : String) (index : Nat) : Except PyErr BasicFit := do
  if param = "shape" then
    let v0 ← noneSubscript (f.shape_value.getD 0 none) index
    let v1 ← noneSubscript (f.shape_value.getD 1 none) index
    let v2 ← noneSubscript (f.shape_value.getD 2 none) index
    let s ← noneSubscript f.shape_samples index
    return ⟨v0, v1, v2, s⟩
  else if param = "loc" then
    let v0 ← noneSubscript (f.loc_value.getD 0 none) index
    let v1 ← noneSubscript (f.loc_value.getD 1 none) index
    let v2 ← noneSubscript (f.loc_value.getD 2 none) index
    let s ← noneSubscript f.loc_samples index
    return ⟨v0, v1, v2, s⟩
  else if param = "scale" then
    let v0 ← noneSubscript (f.scale_value.getD 0 none) index
    let v1 ← noneSubscript (f.scale_value.getD 1 none) index
    let v2 ← noneSubscript (f.scale_value.getD 2 none) index
    let s ← noneSubscript f.scale_samples index
    return ⟨v0, v1, v2, s⟩
  else
    .error (.valueError ("Parameter " ++ param ++ " is unknown."))

/-- Sorting `np.stack((sample, cov)).T` by covariate
(`np.argsort(samples[:, 1])`): insertion of one pair into a list sorted
by second component. -/
def insertPair (p : ℚ × ℚ) : List (ℚ × ℚ) → List (ℚ × ℚ)
  | [] => [p]
  | q :: qs => if p.2 ≤ q.2 then p :: q :: qs else q :: insertPair p qs

/-- Sort a list of `(value, covariate)` pairs by covariate (models the
`argsort`-based reordering in `_get_fitting_values`; `argsort` fixes
one of the orders that agree on the covariate ordering). -/
def sortByCov : List (ℚ × ℚ) → List (ℚ × ℚ)
  | [] => []
  | p :: ps => insertPair p (sortByCov ps)

/-- The paired and sorted sample array of `_get_fitting_values`
(`samples = np.stack((sample, samples[dependency[index]])).T`, then
sorted by the covariate column; `np.stack` requires the two sequences
to have equal length, which every caller guarantees). -/
def sorted_pairs (sample cov : List ℚ) : List (ℚ × ℚ) :=
  sortByCov (sample.zip cov)

/-- The interval-membership mask of `_get_fitting_values`:
`(x >= step - 0.5 * interval_width) & (x < step + 0.5 * interval_width)`
applied to the covariate component of a pair. -/
def interval_mask (interval_width step : ℚ) (p : ℚ × ℚ) : Bool :=
  decide (p.2 ≥ step - interval_width / 2) && decide (p.2 < step + interval_width / 2)

/-- `Fit._append_params(name, param_values, dependency, index,
fitting_values)`: fit the marginal on `fitting_values`, build the
`BasicFit`, and append each parameter whose dependency slot matches
`dependency[index]` to the corresponding `param_values` sub-list
(`param_values` holds the wrapped values of the appended
`ConstantParam`s).  The Python loop body short-circuits:
`dependency[i]` is read first, and `dependency[index]` only when
`dependency[i] is not None`. -/
def append_params (o : Oracles) (name : String) (param_values : List (List ℚ))
    (dependency : List (Option Nat)) (index : Nat) (fitting_values : List ℚ) :
    Except PyErr (List (List ℚ) × BasicFit) := do
  let r ← fit_distribution o name fitting_values
  match r with
  | .kde =>
    -- `BasicFit(*current_params, fitting_values)` with a 2-tuple of
    -- functions: a missing-argument TypeError (unreachable from
    -- `_get_distribution`, which short-circuits KernelDensity).
    .error (.typeError "BasicFit missing 1 required positional argument samples")
  | .params s l sc =>
    let current_params : List ℚ := [s, l, sc]
    let basic_fit : BasicFit := ⟨s, l, sc, fitting_values⟩
    let pv ← ((List.range dependency.length).drop index).foldlM
      (fun (acc : List (List ℚ)) i => do
        let di ← pyGet dependency i
        match di with
        | none => pure acc
        | some _ => do
          let d0 ← pyGet dependency index
          if di = d0 then do
            let cur ← pyGet acc i
            let v ← pyGet current_params i
            pySet acc i (cur ++ [v])
          else pure acc)
      param_values
    return (pv, basic_fit)

/-- The per-interval loop of `_get_fitting_values` (lines 618-641 of the
source): iterates over `enumerate(interval_centers)` (the enumeration
is fixed at loop entry), selecting for each center the sorted samples
inside `[center - width/2, center + width/2)`.  An interval with fewer
than `MIN_DATA_POINTS_FOR_FIT = 10` members, or whose marginal fit
raises `ValueError`, is dropped from the *current* (already shrunk)
center array via `np.delete(interval_centers, i)` with the *original*
index `i` — stale indices can delete the wrong center or raise
`IndexError`.  The accompanying `warnings.warn` calls are elided.
State: current center array, `dist_values`, `param_values`,
`multiple_basic_fit`. -/
def fitting_loop (o : Oracles) (name : String) (dependency : List (Option Nat))
    (index : Nat) (sorted_samples : List (ℚ × ℚ)) (interval_width : ℚ) :
    List (Nat × ℚ) → List ℚ → List (List ℚ) → List (List ℚ) → List BasicFit →
    Except PyErr (List ℚ × List (List ℚ) × List (List ℚ) × List BasicFit)
  | [], interval_centers, dist_values, param_values, multiple_basic_fit =>
    .ok (interval_centers, dist_values, param_values, multiple_basic_fit)
  | (i, step) :: rest, interval_centers, dist_values, param_values, multiple_basic_fit =>
    let fitting_values :=
      ((sorted_samples.filter (interval_mask interval_width step)).map Prod.fst)
    if fitting_values.length ≥ 10 then
      match append_params o name param_values dependency index fitting_values with
      | .ok (pv, basic_fit) =>
        fitting_loop o name dependency index sorted_samples interval_width rest
          interval_centers (dist_values ++ [fitting_values]) pv
          (multiple_basic_fit ++ [basic_fit])
      | .error (.valueError _) =>
        -- per-interval fit failure: drop this step (warning elided)
        match npDelete interval_centers i with
        | .ok centers =>
          fitting_loop o name dependency index sorted_samples interval_width rest
            centers dist_values param_values multiple_basic_fit
        | .error e => .error e
      | .error e => .error e
    else
      -- fewer than MIN_DATA_POINTS_FOR_FIT members: drop this step
      match npDelete interval_centers i with
      | .ok centers =>
        fitting_loop o name dependency index sorted_samples interval_width rest
          centers dist_values param_values multiple_basic_fit
      | .error e => .error e

/-- The interval computation at the head of `_get_fitting_values`
(source lines 593-605): for a truthy `number_of_intervals` the centers
come from `np.linspace(0, max, num=n, endpoint=False, retstep=True)`
shifted by half the returned step; for a truthy `bin_width` from
`np.arange(0.5 * width, max, width)`; otherwise the guard
`RuntimeError` is raised.  Returns
`(interval_centers, interval_width, covariate values)`. -/
def gfv_prepare (samples : List (List ℚ)) (dependency : List (Option Nat))
    (index : Nat) (number_of_intervals : Option Nat) (bin_width : Option ℚ) :
    Except PyErr (List ℚ × ℚ × List ℚ) :=
  if number_of_intervals.getD 0 ≠ 0 then do
    let n := number_of_intervals.getD 0
    let di ← match dependency.getD index none with
      | some d => pure d
      | none => Except.error (PyErr.typeError "list indices must be integers or slices, not NoneType")
    let cov ← pyGet samples di
    let m ← listMax cov
    let step : ℚ := m / n
    pure ((List.range n).map (fun k : Nat => (k : ℚ) * step + step / 2), step, cov)
  else if bin_width.getD 0 ≠ 0 then do
    let w := bin_width.getD 0
    let di ← match dependency.getD index none with
      | some d => pure d
      | none => Except.error (PyErr.typeError "list indices must be integers or slices, not NoneType")
    let cov ← pyGet samples di
    let m ← listMax cov
    pure (npArange (w / 2) m w, w, cov)
  else
    Except.error (PyErr.runtimeError
      ("Either the parameters number_of_intervals or bin_width has to be specified, " ++
       "otherwise the intervals are not specified. Exiting."))

/-- `Fit._get_fitting_values(sample, samples, name, dependency, index,
number_of_intervals, bin_width)`: compute the candidate interval
centers (`gfv_prepare`), sort the paired samples by covariate, run the
per-interval loop, and fail with the insufficient-intervals
`RuntimeError` when fewer than 3 centers remain at the end. -/
def get_fitting_values (o : Oracles) (sample : List ℚ) (samples : List (List ℚ))
    (name : String) (dependency : List (Option Nat)) (index : Nat)
    (number_of_intervals : Option Nat) (bin_width : Option ℚ) :
    Except PyErr (List ℚ × List (List ℚ) × List (List ℚ) × List BasicFit) :=
  match gfv_prepare samples dependency index number_of_intervals bin_width with
  | .error e => .error e
  | .ok (interval_centers, interval_width, cov) =>
    match fitting_loop o name dependency index (sorted_pairs sample cov)
        interval_width interval_centers.enum interval_centers [] [[], [], []] [] with
    | .error e => .error e
    | .ok r =>
      if r.1.length < 3 then
        .error (.runtimeError
          ("Your settings resulted in " ++ toString r.1.length ++
           " intervals. However, at least 3 intervals are required. " ++
           "Consider changing the interval width setting."))
      else .ok r

/-- A fitted parameter of a distribution: `ConstantParam` (a constant)
or `FunctionParam(a, b, c, fn)` (a dependency function). -/
inductive Param : Type
  | const (c : ℚ)
  | func (a b c : ℚ) (fn : FuncKind)
  deriving DecidableEq, Repr

/-- The distribution object assembled at the end of
`_get_distribution`, dispatching on the family name; for an
unrecognized name the local `distribution` stays `None`. -/
inductive DistObj : Type
  | weibull (params : List (Option Param))
  | lognormalSigmaMu (sigma mu : Option Param)
  | lognormalArgs (params : List (Option Param))
  | normal (params : List (Option Param))
  | kernelDensity
  deriving DecidableEq, Repr

/-- The dynamically-typed values that occur in positions 3 and 4 of the
tuple returned by `_get_distribution`: the parametric path returns
`(used_number_of_intervals, fit_inspection_data)` there, the
kernel-density path returns `([[sample]]*3, [None, None, None])`.
`Fit.__init__` unpacks these two positions under swapped variable
names, so both positions must share one Lean type. -/
inductive PyVal4 : Type
  | fid (f : FitInspectionData)
  | intList3 (l : List (Option Nat))
  | samplesList (l : List (List (List ℚ)))
  deriving DecidableEq, Repr

/-- `v[i]` on a position-3/4 value (the stored result is discarded by
our model of `Fit.__init__`, which elides the write into the
description dict): lists subscript normally, a `FitInspectionData`
raises `TypeError`. -/
def pyVal4Subscript (v : PyVal4) (i : Nat) : Except PyErr Unit :=
  match v with
  | .fid _ => .error (.typeError "FitInspectionData object is not subscriptable")
  | .intList3 l => (pyGet l i).map (fun _ => ())
  | .samplesList l => (pyGet l i).map (fun _ => ())

/-- `v.used_number_of_intervals` on a position-3/4 value: only a
`FitInspectionData` has the attribute; a list raises `AttributeError`. -/
def pyVal4UsedNumberOfIntervals (v : PyVal4) : Except PyErr (Option Nat) :=
  match v with
  | .fid f => .ok f.used_number_of_intervals
  | _ => .error (.attributeError "list object has no attribute used_number_of_intervals")

/-- The keyword arguments received by `_get_distribution` (the
per-dimension description dict after `Fit.__init__` added the two
broadcast `list_*` keys). -/
structure Kwargs : Type where
  name : Option String
  dependency : Option (List (Option Nat))
  functions : Option (List (Option String))
  list_number_of_intervals : Option (List (Option Nat))
  list_width_of_intervals : Option (List (Option ℚ))
  deriving DecidableEq, Repr

/-- The `try curve_fit / warn and retry with maxfev=int(1e6) / fatal
RuntimeError` block of `_get_distribution` (source lines 759-789) for a
resolved dependency function `f`.  On the first non-convergence the
parameter name is computed (for slot indices outside 0..2 that chain
leaves `param_name` unbound and the warning call itself would raise),
a warning naming the parameter and dimension is emitted (elided), and
the fit is retried once with `maxfev = 10^6`; a second non-convergence
raises `RuntimeError` naming the parameter and the dimension. -/
def curve_fit_retry (o : Oracles) (f : FuncKind) (interval_centers : List ℚ)
    (fit_points : List ℚ) (i : Nat) (name : String) (dimension : Nat) :
    Except PyErr (ℚ × ℚ × ℚ) :=
  match o.curve_fit f interval_centers fit_points none with
  | some popt => .ok popt
  | none => do
    let param_name ←
      if i = 0 ∧ name = "Lognormal_2" then pure "sigma"
      else if i = 2 ∧ name = "Lognormal_2" then pure "mu"
      else if i = 0 then pure "shape"
      else if i = 1 then pure "loc"
      else if i = 2 then pure "scale"
      else Except.error (PyErr.unboundLocalError "param_name")
    -- warning "Optimal Parameters not found for parameter param_name in
    -- dimension dimension ... Trying again with a higher number of calls"
    -- (elided)
    match o.curve_fit f interval_centers fit_points (some 1000000) with
    | some popt => .ok popt
    | none => .error (.runtimeError
        ("Cant fit curve for parameter " ++ param_name ++ " in dimension " ++
         toString dimension ++ ". Number of iterations exceeded."))

/-- `Fit._get_distribution(dimension, samples, **kwargs)`: per-dimension
orchestrator.  Kernel density short-circuits (refusing any dependency);
otherwise each of the three parameter slots is resolved, independent
slots by a direct marginal fit, dependent slots via
`_get_fitting_values` plus a dependency-curve fit, with slots of equal
dependency filled together.  Returns, in source order, the 4-tuple
`(distribution, dependency, used_number_of_intervals,
fit_inspection_data)`. -/
def get_distribution (o : Oracles) (dimension : Nat) (samples : List (List ℚ))
    (kw : Kwargs) :
    Except PyErr (Option DistObj × List (Option Nat) × PyVal4 × PyVal4) := do
  let sample ← pyGet samples dimension
  let name := kw.name.getD "Weibull"
  let dependency := kw.dependency.getD [none, none, none]
  let functions := kw.functions.getD [some "polynomial", some "polynomial", some "polynomial"]
  let fit_inspection_data := FitInspectionData.init
  if name = "KernelDensity" then
    if dependency ≠ [none, none, none] then
      .error (.notImplementedError "KernelDensity can not be conditional.")
    else do
      let _ ← fit_distribution o name sample
      return (some DistObj.kernelDensity, dependency,
        PyVal4.samplesList [[sample], [sample], [sample]],
        PyVal4.intList3 [none, none, none])
  else do
    -- params = [None, None, None]; used_number_of_intervals = [None, None, None]
    let st ← (List.range dependency.length).foldlM
      (fun (st : List (Option Param) × List (Option Nat) × FitInspectionData)
          index => do
        let pIdx ← pyGet st.1 index
        match pIdx with
        | some _ => pure st  -- continue if params is yet computed
        | none => do
          let dIdx ← pyGet dependency index
          match dIdx with
          | none => do
            -- no dependency for this param: direct marginal fit
            let r ← fit_distribution o name sample
            match r with
            | .kde => .error (.typeError "BasicFit missing 1 required positional argument samples")
            | .params s l sc =>
              let current_params : List ℚ := [s, l, sc]
              let basic_fit : BasicFit := ⟨s, l, sc, sample⟩
              let pf ← ((List.range functions.length).drop index).foldlM
                (fun (pf : List (Option Param) × FitInspectionData) i => do
                  let di ← pyGet dependency i
                  match di with
                  | some _ => pure pf
                  | none => do
                    -- the other parameter also has no dependency
                    let fid ←
                      if i = 0 then pf.2.append_basic_fit "shape" basic_fit
                      else if i = 1 then pf.2.append_basic_fit "loc" basic_fit
                      else if i = 2 then pf.2.append_basic_fit "scale" basic_fit
                      else pure pf.2
                    let v ← pyGet current_params i
                    let newParam : Param :=
                      if i = 2 ∧ name = "Lognormal_2" then
                        -- ConstantParam(np.log(current_params[i](0)))
                        .const (o.lg v)
                      else .const v
                    let params ← pySet pf.1 i (some newParam)
                    pure (params, fid))
                (st.1, st.2.2)
              pure (pf.1, st.2.1, pf.2)
          | some d => do
            -- dependency on dimension d
            let lni ← match kw.list_number_of_intervals with
              | some l => pure l
              | none => Except.error (PyErr.typeError "NoneType object is not subscriptable")
            let niv ← pyGet lni d
            let fvOpt ←
              if niv.getD 0 ≠ 0 then do
                let r ← get_fitting_values o sample samples name dependency index niv none
                pure (some r)
              else do
                let lwi ← match kw.list_width_of_intervals with
                  | some l => pure l
                  | none => Except.error (PyErr.typeError "NoneType object is not subscriptable")
                let wv ← pyGet lwi d
                if wv.getD 0 ≠ 0 then do
                  let r ← get_fitting_values o sample samples name dependency index none wv
                  pure (some r)
                else
                  -- neither guard fired: the four locals of the
                  -- partition stay unbound
                  pure none
            let st3 ← ((List.range functions.length).drop index).foldlM
              (fun (st3 : List (Option Param) × List (Option Nat) × FitInspectionData)
                  i => do
                let di ← pyGet dependency i
                match di with
                | none => pure st3
                | some dv => do
                  let d0 ← pyGet dependency index
                  if some dv = d0 then
                    match fvOpt with
                    | none =>
                      -- `for basic_fit in multiple_basic_fit` with the
                      -- local never assigned
                      Except.error (PyErr.unboundLocalError "multiple_basic_fit")
                    | some (interval_centers, _dist_values, param_values,
                        multiple_basic_fit) => do
                      let fid ← multiple_basic_fit.foldlM
                        (fun f bf =>
                          if i = 0 then f.append_basic_fit "shape" bf
                          else if i = 1 then f.append_basic_fit "loc" bf
                          else if i = 2 then f.append_basic_fit "scale" bf
                          else pure f)
                        st3.2.2
                      let used ← pySet st3.2.1 i (some interval_centers.length)
                      let pvI ← pyGet param_values i
                      let fit_points : List ℚ :=
                        if i = 2 ∧ name = "Lognormal_2" then
                          -- [np.log(p(None)) for p in param_values[i]]
                          pvI.map o.lg
                        else pvI
                      let fname ← pyGet functions i
                      let fk ← get_function fname
                      match fk with
                      | none =>
                        -- curve_fit(None, ...): None is not callable
                        Except.error (PyErr.typeError "NoneType object is not callable")
                      | some f => do
                        let popt ← curve_fit_retry o f interval_centers fit_points
                          i name dimension
                        let params ← pySet st3.1 i
                          (some (Param.func popt.1 popt.2.1 popt.2.2 f))
                        pure (params, used, fid)
                  else pure st3)
              st
            pure st3)
      ([none, none, none], [none, none, none], fit_inspection_data)
    -- assemble the particular distribution
    let distribution : Option DistObj ←
      if name = "Weibull" then pure (some (DistObj.weibull st.1))
      else if name = "Lognormal_2" then do
        let s ← pyGet st.1 0
        let m ← pyGet st.1 2
        pure (some (DistObj.lognormalSigmaMu s m))
      else if name = "Lognormal_1" then pure (some (DistObj.lognormalArgs st.1))
      else if name = "Normal" then pure (some (DistObj.normal st.1))
      else pure none
    return (distribution, dependency, PyVal4.intList3 st.2.1, PyVal4.fid st.2.2)

/-- One caller-supplied per-dimension description dict (before
`Fit.__init__` adds the broadcast `list_*` keys). -/
structure DistDescription : Type where
  name : Option String
  dependency : Option (List (Option Nat))
  functions : Option (List (Option String))
  number_of_intervals : Option Nat
  width_of_intervals : Option ℚ
  deriving DecidableEq, Repr

/-- The joint distribution assembled by `Fit.__init__`
(`MultivariateDistribution(distributions, dependencies)`). -/
structure MultivariateDistribution : Type where
  distributions : List (Option DistObj)
  dependencies : List (List (Option Nat))
  deriving DecidableEq, Repr

/-- The attributes of a fully constructed `Fit` object that the claims
concern.  Note that `multiple_fit_inspection_data` collects the values
`Fit.__init__` binds to its `fit_inspection_data` variable, which —
because of the unpack order — are position-3 values. -/
structure FitState : Type where
  mul_var_dist : MultivariateDistribution
  multiple_fit_inspection_data : List PyVal4
  deriving DecidableEq, Repr

/-- The back-fill loop at the end of `Fit.__init__`: for every
collected element, `if not fit_inspection_data.used_number_of_intervals:
fit_inspection_data.used_number_of_intervals = 1` (Python falsiness:
`None` and `0`). -/
def default_used_number_of_intervals (v : PyVal4) : Except PyErr PyVal4 := do
  let u ← pyVal4UsedNumberOfIntervals v
  if u.getD 0 = 0 then
    match v with
    | .fid f => pure (.fid { f with used_number_of_intervals := some 1 })
    | w => pure w
  else pure v

/-- `Fit.__init__(samples, dist_descriptions)`: broadcast every
description's interval count / width into shared `list_*` keys, run
`_get_distribution` per dimension (the worker pool dispatches one task
per dimension and `__init__` retrieves the results in dimension order,
re-raising a worker's exception at its `get`; modelled sequentially in
that order), then join the results.  The join unpacks each returned
4-tuple as `distribution, dependency, fit_inspection_data,
used_number_of_intervals` although `_get_distribution` returns
`distribution, dependency, used_number_of_intervals,
fit_inspection_data` — the source's variable names are bound to the
swapped positions, which this model reproduces: its
`fit_inspection_data` is the tuple's third component, its
`used_number_of_intervals` the fourth.  The write of the used interval
count into `self.dist_descriptions[dep]` is elided beyond its
subscript's effect. -/
def Fit.init (o : Oracles) (samples : List (List ℚ))
    (dist_descriptions : List DistDescription) : Except PyErr FitState := do
  let list_number_of_intervals := dist_descriptions.map (·.number_of_intervals)
  let list_width_of_intervals := dist_descriptions.map (·.width_of_intervals)
  let multiple_results ← (List.range samples.length).mapM (fun dimension => do
    let dist_description ← pyGet dist_descriptions dimension
    get_distribution o dimension samples
      ⟨dist_description.name, dist_description.dependency, dist_description.functions,
       some list_number_of_intervals, some list_width_of_intervals⟩)
  let st ← multiple_results.foldlM
    (fun (st : List (Option DistObj) × List (List (Option Nat)) × List PyVal4) res => do
      let distribution := res.1
      let dependency := res.2.1
      let fit_inspection_data := res.2.2.1   -- third position (swapped)
      let used_number_of_intervals := res.2.2.2  -- fourth position (swapped)
      -- save the used number of intervals for referenced dimensions
      let _ ← dependency.enum.foldlM
        (fun (_ : Unit) dep =>
          match dep.2 with
          | none => pure ()
          | some _ => pyVal4Subscript used_number_of_intervals dep.1)
        ()
      pure (st.1 ++ [distribution], st.2.1 ++ [dependency],
        st.2.2 ++ [fit_inspection_data]))
    ([], [], [])
  -- add used number of intervals for dimensions with no dependency
  let multiple_fit_inspection_data ← st.2.2.mapM default_used_number_of_intervals
  return ⟨⟨st.1, st.2.1⟩, multiple_fit_inspection_data⟩

/-! Helper lemmas (shared by the claim theorems below). -/

/-- Bind of an `ok` value in the `Except` monad. -/
theorem exceptOkBind {α β : Type} (a : α) (f : α → Except PyErr β) :
    (Except.ok a >>= f) = f a := rfl

/-- `append_params` for the dependency pattern `[some 1, none, none]` at
slot 0: when the marginal fit succeeds, the shape value is appended to
the first `param_values` sub-list and the `BasicFit` is returned. -/
theorem append_params_dep1 (o : Oracles) (name : String) (a b c fv : List ℚ)
    (s l sc : ℚ) (h : fit_distribution o name fv = .ok (.params s l sc)) :
    append_params o name [a, b, c] [some 1, none, none] 0 fv =
      .ok ([a ++ [s], b, c], ⟨s, l, sc, fv⟩) := by
  unfold append_params
  rw [h]
  rfl

/-- Counting on an enumerated list with a predicate on the values only. -/
theorem countP_enumFrom (f : ℚ → Bool) (l : List ℚ) :
    ∀ n, (l.enumFrom n).countP (fun p => f p.2) = l.countP f := by
  induction l with
  | nil => intro n; rfl
  | cons x xs ih =>
    intro n
    simp [List.enumFrom, List.countP_cons, ih]

/-- Counting on `l.enum` with a predicate on the values only. -/
theorem countP_enum (f : ℚ → Bool) (l : List ℚ) :
    l.enum.countP (fun p => f p.2) = l.countP f :=
  countP_enumFrom f l 0

/-- When every marginal fit succeeds, a successful run of the
per-interval loop returns a center array whose length is the entry
length minus the number of pending candidates with fewer than 10
members (each such candidate fires one in-bounds `np.delete`, or the
loop fails). -/
theorem fitting_loop_ok_length (o : Oracles) (name : String)
    (sorted_samples : List (ℚ × ℚ)) (w : ℚ)
    (hfit : ∀ fv : List ℚ, ∃ s l sc, fit_distribution o name fv = .ok (.params s l sc)) :
    ∀ (todo : List (Nat × ℚ)) (centers : List ℚ) (dvals : List (List ℚ))
      (a b c : List ℚ) (fits : List BasicFit) r,
      fitting_loop o name [some 1, none, none] 0 sorted_samples w todo
        centers dvals [a, b, c] fits = .ok r →
      r.1.length = centers.length -
        todo.countP (fun p =>
          decide ((sorted_samples.filter (interval_mask w p.2)).length < 10)) := by
  intro todo
  induction todo with
  | nil =>
    intro centers dvals a b c fits r h
    simp only [fitting_loop] at h
    cases h
    simp
  | cons p rest ih =>
    obtain ⟨i, step⟩ := p
    intro centers dvals a b c fits r h
    simp only [fitting_loop] at h
    by_cases h10 : ((sorted_samples.filter (interval_mask w step)).map Prod.fst).length ≥ 10
    · rw [if_pos h10] at h
      obtain ⟨s, l, sc, hf⟩ := hfit ((sorted_samples.filter (interval_mask w step)).map Prod.fst)
      rw [append_params_dep1 o name a b c _ s l sc hf] at h
      have := ih centers (dvals ++ [(sorted_samples.filter (interval_mask w step)).map Prod.fst])
        (a ++ [s]) b c _ r h
      rw [this]
      have hnot : ¬ ((sorted_samples.filter (interval_mask w step)).length < 10) := by
        rw [List.length_map] at h10
        omega
      simp [List.countP_cons, hnot]
    · rw [if_neg h10] at h
      by_cases hi : i < centers.length
      · rw [npDelete, if_pos hi] at h
        have := ih (centers.eraseIdx i) dvals a b c fits r h
        rw [this]
        have hyes : ((sorted_samples.filter (interval_mask w step)).length < 10) := by
          rw [List.length_map] at h10
          omega
        rw [List.length_eraseIdx_of_lt hi]
        simp [List.countP_cons, hyes]
        omega
      · rw [npDelete, if_neg hi] at h
        cases h

/-- In the fixed-width branch (`number_of_intervals = None`, truthy
width), the candidate centers are `np.arange(w/2, max, w)` over the
covariate dimension. -/
theorem gfv_prepare_width (sample cov : List ℚ) (w m : ℚ)
    (hw : w ≠ 0) (hm : listMax cov = .ok m) :
    gfv_prepare [sample, cov] [some 1, none, none] 0 none (some w) =
      .ok (npArange (w / 2) m w, w, cov) := by
  unfold gfv_prepare
  rw [if_neg (by simp), if_pos (by simpa using hw)]
  show (listMax cov >>= fun m2 => pure (npArange (w / 2) m2 w, w, cov)) = _
  rw [hm]
  rfl

/-! Concrete inputs shared by the evaluation theorems below. -/

/-- A fixed instantiation of the external library: every marginal fit
converges to a constant triple, every curve fit converges. -/
def oracles0 : Oracles :=
  ⟨fun _ => some (1, 0, 1), fun _ => some (0, 1), fun _ => some (1, (0, 2)),
   fun _ _ _ _ => some (1, 1, 1), fun x => x⟩

/-- Claim C1 (code_bug evaluation): a `Fit` construction on one
kernel-density dimension — whose worker succeeds — fails with
`AttributeError` in the back-fill loop, because `__init__` unpacks the
worker tuple with `fit_inspection_data` and `used_number_of_intervals`
swapped, so `multiple_fit_inspection_data` collects plain lists instead
of `FitInspectionData` records; no nonempty input yields a constructed
object exposing the claimed inspection records. -/
theorem fit_init_swapped_unpack_attribute_error (o : Oracles) :
    Fit.init o [[1, 2, 3]]
      [⟨some "KernelDensity", some [none, none, none], none, none, none⟩] =
      .error (.attributeError "list object has no attribute used_number_of_intervals") :=
  rfl

/-- Claim C2 (code_bug evaluation): on a freshly constructed
`FitInspectionData`, `append_basic_fit` raises `AttributeError` for
every parameter name and every `BasicFit`, because `__init__`
initializes the value accumulators to `None` rather than empty lists;
the claimed append/`get_basic_fit` round trip never gets started. -/
theorem append_basic_fit_fresh_attribute_error (b : BasicFit) :
    FitInspectionData.init.append_basic_fit "shape" b =
        .error (.attributeError "NoneType object has no attribute append") ∧
    FitInspectionData.init.append_basic_fit "loc" b =
        .error (.attributeError "NoneType object has no attribute append") ∧
    FitInspectionData.init.append_basic_fit "scale" b =
        .error (.attributeError "NoneType object has no attribute append") :=
  ⟨rfl, rfl, rfl⟩

/-- Claim C3 (code_bug evaluation): a run in which 0 of 2 candidate
intervals survive does not reach the insufficient-intervals
`RuntimeError`; the second `np.delete(interval_centers, 1)` uses the
stale enumeration index against the already shrunk array and raises
`IndexError` instead (whatever the marginal-fit oracle does — it is
never consulted). -/
theorem get_fitting_values_sparse_intervals_index_error (o : Oracles) :
    get_fitting_values o [0, 0] [[0, 0], [1/2, 2]] "Weibull" [some 1, none, none] 0
        none (some 1) =
      .error (.indexError "index 1 is out of bounds for axis 0 with size 1") := by
  with_unfolding_all rfl

/-- Covariate sample for the C4 evaluation: ten points in each of
`[0,1)`, `[1,2)`, `[2,3)` and the maximum 3, so that a 3-interval
partition succeeds fully. -/
def c4_cov : List ℚ :=
  [0, 1/10, 2/10, 3/10, 4/10, 5/10, 6/10, 7/10, 8/10, 9/10,
   1, 11/10, 12/10, 13/10, 14/10, 15/10, 16/10, 17/10, 18/10, 19/10,
   2, 21/10, 22/10, 23/10, 24/10, 25/10, 26/10, 27/10, 28/10, 29/10, 3]

/-- Description of a dimension whose shape parameter depends on
dimension 1, which is divided into 3 intervals. -/
def c4_kwargs : Kwargs :=
  ⟨some "Weibull", some [some 1, none, none], some [some "f1", none, none],
   some [none, some 3], some [none, none]⟩

set_option maxRecDepth 100000 in
/-- Claim C4 (code_bug evaluation): on a dependent parameter slot whose
partition succeeds (3 full intervals), `_get_distribution` raises
`AttributeError` at the first `append_basic_fit` — for every
curve-fitting oracle `cf` and every `np.log` — so the
warn-retry-fail-fatally policy of source lines 759-789, which does
implement the claimed behavior, is unreachable: `curve_fit` is never
invoked. -/
theorem get_distribution_curve_fit_retry_unreachable
    (cf : FuncKind → List ℚ → List ℚ → Option Nat → Option (ℚ × ℚ × ℚ))
    (lg : ℚ → ℚ) (nf : List ℚ → Option (ℚ × ℚ))
    (lf : List ℚ → Option (ℚ × ℚ × ℚ)) :
    get_distribution ⟨fun _ => some (1, 0, 1), nf, lf, cf, lg⟩ 0
        [List.replicate 31 0, c4_cov] c4_kwargs =
      .error (.attributeError "NoneType object has no attribute append") := by
  with_unfolding_all rfl

/-- Covariate sample for the C5 counterexample: ten points in each of
`[0,1)`, `[1,2)`, `[2,3)` and the maximum 3.3. -/
def c5_cov : List ℚ :=
  [0, 1/10, 2/10, 3/10, 4/10, 5/10, 6/10, 7/10, 8/10, 9/10,
   1, 11/10, 12/10, 13/10, 14/10, 15/10, 16/10, 17/10, 18/10, 19/10,
   2, 21/10, 22/10, 23/10, 24/10, 25/10, 26/10, 27/10, 28/10, 29/10, 33/10]

/-- Dependent-dimension sample paired with `c5_cov`. -/
def c5_sample : List ℚ := List.replicate 31 0

set_option maxRecDepth 100000 in
/-- Claim C5 (counterexample): with width `W = 1` and covariate maximum
`3.3`, no interval is dropped (no candidate has fewer than 10 members
and every marginal fit succeeds), yet only 3 interval centers are
returned, while the claimed count `ceil(max/W) - #underpopulated`
equals `4 - 0 = 4`: `np.arange(W/2, max, W)` stops at the last odd
multiple of `W/2` below the maximum, giving `ceil(max/W - 1/2)`
candidates, not `ceil(max/W)`. -/
theorem get_fitting_values_center_count_counterexample :
    (get_fitting_values oracles0 c5_sample [c5_sample, c5_cov] "Weibull"
        [some 1, none, none] 0 none (some 1)).map (fun r => r.1.length) =
      .ok 3 ∧
    (npArange ((1:ℚ)/2) (33/10) 1).countP
      (fun c => decide (((sorted_pairs c5_sample c5_cov).filter
        (interval_mask 1 c)).length < 10)) = 0 ∧
    (⌈((33:ℚ)/10) / 1⌉ : ℤ) = 4 ∧ (3 : ℤ) ≠ 4 - 0 :=
  ⟨by with_unfolding_all rfl, by with_unfolding_all rfl,
   by with_unfolding_all decide, by decide⟩

/-- Claim C5 (amended): for a fixed-width call that returns
successfully with no marginal-fit failure, the number of returned
interval centers is the number of `np.arange(W/2, max, W)` candidates
— which is `ceil(max/W - 1/2)`, not `ceil(max/W)` — minus the number
of candidate intervals with fewer than 10 members. -/
theorem get_fitting_values_width_count
    (o : Oracles) (name : String) (sample cov : List ℚ) (w m : ℚ)
    (hfit : ∀ fv : List ℚ, ∃ s l sc, fit_distribution o name fv = .ok (.params s l sc))
    (hw : 0 < w) (hm : listMax cov = .ok m)
    (r : List ℚ × List (List ℚ) × List (List ℚ) × List BasicFit)
    (h : get_fitting_values o sample [sample, cov] name [some 1, none, none] 0
      none (some w) = .ok r) :
    r.1.length = (npArange (w / 2) m w).length -
      (npArange (w / 2) m w).countP
        (fun c => decide (((sorted_pairs sample cov).filter (interval_mask w c)).length < 10)) ∧
    (npArange (w / 2) m w).length = (⌈m / w - 1 / 2⌉).toNat := by
  constructor
  · unfold get_fitting_values at h
    rw [gfv_prepare_width sample cov w m hw.ne' hm] at h
    revert h
    show (match fitting_loop o name [some 1, none, none] 0 (sorted_pairs sample cov) w
        (npArange (w / 2) m w).enum (npArange (w / 2) m w) [] [[], [], []] [] with
      | .error e => Except.error e
      | .ok r0 =>
        if r0.1.length < 3 then
          Except.error (PyErr.runtimeError
            ("Your settings resulted in " ++ toString r0.1.length ++
             " intervals. However, at least 3 intervals are required. " ++
             "Consider changing the interval width setting."))
        else Except.ok r0) = Except.ok r → _
    intro h
    split at h
    · cases h
    · rename_i r0 heq
      split at h
      · cases h
      · cases h
        have := fitting_loop_ok_length o name (sorted_pairs sample cov) w hfit
          (npArange (w / 2) m w).enum (npArange (w / 2) m w) [] [] [] [] [] r heq
        rw [this,
          countP_enum (fun c => decide (((sorted_pairs sample cov).filter (interval_mask w c)).length < 10))]
  · unfold npArange
    have heq : (m - w / 2) / w = m / w - 1 / 2 := by
      rw [sub_div]
      congr 1
      rw [div_div]
      rw [div_eq_div_iff (by positivity) (by norm_num)]
      ring
    rw [heq]
    rw [List.length_map, List.length_range]

/-- Covariate sample for the C5 witness: ten points in each of `[0,1)`,
`[1,2)`, `[2,3)`; the maximum is 2.9. -/
def c5w_cov : List ℚ :=
  [0, 1/10, 2/10, 3/10, 4/10, 5/10, 6/10, 7/10, 8/10, 9/10,
   1, 11/10, 12/10, 13/10, 14/10, 15/10, 16/10, 17/10, 18/10, 19/10,
   2, 21/10, 22/10, 23/10, 24/10, 25/10, 26/10, 27/10, 28/10, 29/10]

/-- Dependent-dimension sample paired with `c5w_cov`. -/
def c5w_sample : List ℚ := List.replicate 30 0

/-- The value returned by `get_fitting_values` on the C5 witness input. -/
def c5w_result : List ℚ × List (List ℚ) × List (List ℚ) × List BasicFit :=
  ([1/2, 3/2, 5/2],
   [List.replicate 10 0, List.replicate 10 0, List.replicate 10 0],
   [[1, 1, 1], [], []],
   [⟨1, 0, 1, List.replicate 10 0⟩, ⟨1, 0, 1, List.replicate 10 0⟩,
    ⟨1, 0, 1, List.replicate 10 0⟩])

set_option maxRecDepth 100000 in
/-- Witness for the amended claim C5 at a concrete input: width 1,
covariate maximum 2.9, all three candidate intervals populated, every
fit converging. -/
theorem get_fitting_values_width_count_w :
    ((0:ℚ) < 1 ∧ listMax c5w_cov = .ok (29/10) ∧
      get_fitting_values oracles0 c5w_sample [c5w_sample, c5w_cov] "Weibull"
        [some 1, none, none] 0 none (some 1) = .ok c5w_result) ∧
    (c5w_result.1.length = (npArange ((1:ℚ) / 2) (29/10) 1).length -
        (npArange ((1:ℚ) / 2) (29/10) 1).countP
          (fun c => decide (((sorted_pairs c5w_sample c5w_cov).filter
            (interval_mask 1 c)).length < 10)) ∧
      (npArange ((1:ℚ) / 2) (29/10) 1).length = (⌈(29:ℚ)/10 / 1 - 1/2⌉).toNat) :=
  ⟨⟨by norm_num, by with_unfolding_all rfl, by with_unfolding_all rfl⟩,
   get_fitting_values_width_count oracles0 "Weibull" c5w_sample c5w_cov 1 (29/10)
     (fun fv => ⟨1, 0, 1, rfl⟩) (by norm_num) (by with_unfolding_all rfl) c5w_result
     (by with_unfolding_all rfl)⟩

/-- Claim C6 (counterexample): the family name `Lognormal_3` lies
outside the enumeration `Weibull, Normal, Lognormal_1, Lognormal_2,
KernelDensity`, yet `_fit_distribution` raises nothing — the
`name[:-2] == 'Lognormal'` test accepts it and a lognormal fit result
is produced. -/
theorem fit_distribution_lognormal3_counterexample :
    fit_distribution oracles0 "Lognormal_3" [5, 6, 7] = .ok (.params 1 0 2) ∧
    ("Lognormal_3" ≠ "Weibull" ∧ "Lognormal_3" ≠ "Normal" ∧
     "Lognormal_3" ≠ "Lognormal_1" ∧ "Lognormal_3" ≠ "Lognormal_2" ∧
     "Lognormal_3" ≠ "KernelDensity") :=
  ⟨rfl, by decide⟩

/-- Claim C6 (amended): for every family name that is not `Weibull`,
`Normal` or `KernelDensity` and does not consist of `Lognormal`
followed by exactly two characters, `_fit_distribution` fails
immediately, for every sample and every oracle, before producing any
fitting result — though with an `UnboundLocalError` on its `params`
local, not an explicit configuration error. -/
theorem fit_distribution_unknown_name_unbound_local
    (o : Oracles) (name : String) (sample : List ℚ)
    (h1 : name ≠ "Weibull") (h2 : name ≠ "Normal")
    (h3 : name.dropRight 2 ≠ "Lognormal") (h4 : name ≠ "KernelDensity") :
    fit_distribution o name sample = .error (.unboundLocalError "params") := by
  simp [fit_distribution, h1, h2, h3, h4]

/-- Witness for the amended claim C6 at the concrete name `Gumbel`. -/
theorem fit_distribution_unknown_name_unbound_local_w :
    ("Gumbel" ≠ "Weibull" ∧ "Gumbel" ≠ "Normal" ∧
     "Gumbel".dropRight 2 ≠ "Lognormal" ∧ "Gumbel" ≠ "KernelDensity") ∧
    fit_distribution oracles0 "Gumbel" [1, 2] = .error (.unboundLocalError "params") :=
  ⟨by decide,
   fit_distribution_unknown_name_unbound_local oracles0 "Gumbel" [1, 2]
     (by decide) (by decide) (by decide) (by decide)⟩

/-- Claim C7 (confirmed): for every oracle, dimension and sample set,
fitting a `KernelDensity` dimension whose dependency triple is not
`(None, None, None)` fails with the NotImplementedError
`KernelDensity can not be conditional.` — the check sits before any
marginal fitting, and the universally quantified oracles and samples
show the failure is independent of the sample content. -/
theorem get_distribution_kernel_density_conditional
    (o : Oracles) (dimension : Nat) (samples : List (List ℚ)) (kw : Kwargs)
    (hdim : dimension < samples.length)
    (hname : kw.name = some "KernelDensity")
    (hdep : kw.dependency.getD [none, none, none] ≠ [none, none, none]) :
    get_distribution o dimension samples kw =
      .error (.notImplementedError "KernelDensity can not be conditional.") := by
  unfold get_distribution
  rw [pyGet, dif_pos hdim, exceptOkBind, hname]
  simp only [Option.getD_some]
  rw [if_pos trivial, if_pos hdep]

/-- Witness for claim C7 at a concrete conditional kernel-density
description. -/
theorem get_distribution_kernel_density_conditional_w :
    ((0 : Nat) < ([[1]] : List (List ℚ)).length ∧
      (Kwargs.mk (some "KernelDensity") (some [none, some 0, none]) none none none).name =
        some "KernelDensity" ∧
      (Kwargs.mk (some "KernelDensity") (some [none, some 0, none]) none none none).dependency.getD
        [none, none, none] ≠ [none, none, none]) ∧
    get_distribution oracles0 0 [[1]]
        (Kwargs.mk (some "KernelDensity") (some [none, some 0, none]) none none none) =
      .error (.notImplementedError "KernelDensity can not be conditional.") :=
  ⟨⟨by decide, rfl, by decide⟩,
   get_distribution_kernel_density_conditional oracles0 0 [[1]]
     (Kwargs.mk (some "KernelDensity") (some [none, some 0, none]) none none none)
     (by decide) rfl (by decide)⟩

/-- Description of a dimension whose shape depends on dimension 1 while
neither an interval count nor an interval width was supplied for
dimension 1 (both broadcast lists hold `None` there). -/
def c8_kwargs : Kwargs :=
  ⟨some "Weibull", some [some 1, none, none], some [some "f1", none, none],
   some [none, none], some [none, none]⟩

/-- Claim C8 (code_bug evaluation): a dependent parameter whose
referenced dimension has neither an interval count nor an interval
width does not produce a configuration error: the `if/elif` around the
partition call is skipped, and the following loop raises
`UnboundLocalError` on `multiple_basic_fit` (for every oracle; the
explicit spacing `RuntimeError` inside `_get_fitting_values` is
unreachable from `_get_distribution`). -/
theorem get_distribution_missing_interval_spec_unbound_local (o : Oracles) :
    get_distribution o 0 [[1, 2], [3, 4]] c8_kwargs =
      .error (.unboundLocalError "multiple_basic_fit") :=
  rfl

/-- Description of a `Lognormal_2` dimension whose scale (mu) parameter
depends on dimension 0. -/
def c9_kwargs : Kwargs :=
  ⟨some "Lognormal_2", some [none, none, some 0], some [none, none, some "f2"],
   some [some 3, none], some [none, none]⟩

/-- Claim C9 (code_bug evaluation): in a `Lognormal_2` fit with a
dependent scale, `_get_distribution` raises `AttributeError` at the
very first `append_basic_fit` (the independent shape slot), for every
`np.log` oracle `lg` and every curve-fitting oracle `cf` — so neither
the log-transform of the per-interval scale values (line 755) nor the
log conversion of an independent scale (line 726) is ever executed. -/
theorem get_distribution_lognormal2_log_unreachable
    (wf : List ℚ → Option (ℚ × ℚ × ℚ)) (nf : List ℚ → Option (ℚ × ℚ))
    (cf : FuncKind → List ℚ → List ℚ → Option Nat → Option (ℚ × ℚ × ℚ))
    (lg : ℚ → ℚ) :
    get_distribution ⟨wf, nf, fun _ => some (1, (0, 2)), cf, lg⟩ 1 [[1], [2]] c9_kwargs =
      .error (.attributeError "NoneType object has no attribute append") :=
  rfl

/-- Claim C10 (confirmed): the selection mask of the per-interval loop
assigns a `(value, covariate)` pair to the interval at center `step`
exactly when the covariate satisfies
`step - width/2 <= covariate < step + width/2` — inclusive lower bound,
exclusive upper bound. -/
theorem interval_mask_half_open (ps : List (ℚ × ℚ)) (interval_width step : ℚ)
    (p : ℚ × ℚ) :
    p ∈ ps.filter (interval_mask interval_width step) ↔
      p ∈ ps ∧ step - interval_width / 2 ≤ p.2 ∧ p.2 < step + interval_width / 2 := by
  simp [List.mem_filter, interval_mask, ge_iff_le]
